import Mathlib

/-!
Verification of the pose-estimation core of gym-vrep
(`gym_vrep/envs/mobile_robot_navigation/navigation.py`).

The Python module is shallowly embedded over `ℝ`:

* `np.round(x, 3)` is modelled by `round3` (scaled round-half-to-even,
  numpy's rounding rule, on exact reals);
* `np.fmod` is modelled by `fmod` (remainder with the dividend's sign,
  C `fmod` semantics, which is what numpy implements);
* `np.arctan2 y x` is modelled by `atan2`, the argument of the complex
  number `x + y·i` (`Complex.arg`), which agrees with `atan2` on ℝ;
* `np.linalg.norm` of a 2-vector is `norm2`;
* each estimator class becomes a state structure mirroring the mutable
  fields of `self`, and each method becomes a function from the state and
  the values read from the robot collaborator to the returned value and
  the updated state.  The robot collaborator's readings
  (`get_pose`, `get_encoders_rotations`, `get_gyroscope_values`) are
  passed as explicit arguments.
-/

namespace GymVrep

/-- A pose `(x, y, θ)` of the mobile robot: the 3-element numpy array
`self._pose` of the Python code. -/
@[ext]
structure Pose where
  x : ℝ
  y : ℝ
  th : ℝ

/-- Round to the nearest integer, ties to even — the rounding rule used by
`np.round`. -/
noncomputable def roundHalfEven (x : ℝ) : ℤ :=
  if x - ⌊x⌋ < 1 / 2 then ⌊x⌋
  else if 1 / 2 < x - ⌊x⌋ then ⌊x⌋ + 1
  else if Even ⌊x⌋ then ⌊x⌋ else ⌊x⌋ + 1

/-- `np.round(x, 3)`: round to 3 decimal places. -/
noncomputable def round3 (x : ℝ) : ℝ := (roundHalfEven (x * 1000) : ℝ) / 1000

/-- Truncation toward zero, as used by C `fmod`. -/
noncomputable def trunc (x : ℝ) : ℝ := if 0 ≤ x then (⌊x⌋ : ℝ) else (⌈x⌉ : ℝ)

/-- `np.fmod a b`: remainder of `a / b` carrying the sign of `a`. -/
noncomputable def fmod (a b : ℝ) : ℝ := a - b * trunc (a / b)

/-- `np.arctan2 y x`, modelled as the argument of `x + y·i`. -/
noncomputable def atan2 (y x : ℝ) : ℝ := Complex.arg ⟨x, y⟩

/-- `np.linalg.norm` of the 2-vector `(x, y)`. -/
noncomputable def norm2 (x y : ℝ) : ℝ := Real.sqrt (x ^ 2 + y ^ 2)

/-- The wrap candidate computed (and then discarded) by
`Base._angle_correction`: `fmod(angle ± π, 2π) ∓ π` depending on the sign
of `angle`. -/
noncomputable def wrapCandidate (angle : ℝ) : ℝ :=
  if angle ≥ 0 then fmod (angle + Real.pi) (2 * Real.pi) - Real.pi
  else fmod (angle - Real.pi) (2 * Real.pi) + Real.pi

/-- `Base._angle_correction`.  The Python body assigns the wrap candidate
to `new_angle`, then unconditionally overwrites `new_angle` with
`np.round(angle, 3)` (rounding the *input*) and returns it. -/
noncomputable def angle_correction (angle : ℝ) : ℝ :=
  let new_angle := wrapCandidate angle
  let new_angle := round3 angle
  new_angle

/-- The mutable fields shared by all estimators (`Base.__init__`):
geometry constants copied from the robot, the tick duration and the pose
buffer.  (`self._target_position`, set to `None` and never used again, is
omitted.) -/
structure BaseState where
  wheel_radius : ℝ
  body_width : ℝ
  dt : ℝ
  pose : Pose

/-- `Base.__init__`: `wheel_radius := wheel_diameter / 2`, geometry stored
as given (no validation of any kind), pose buffer zeroed. -/
noncomputable def Base.init (wheel_diameter body_width dt : ℝ) : BaseState :=
  { wheel_radius := wheel_diameter / 2
    body_width := body_width
    dt := dt
    pose := ⟨0, 0, 0⟩ }

/-- State of the `Odometry` estimator: the `Base` fields plus the
`_sum_path` accumulator. -/
structure OdomState extends BaseState where
  sum_path : ℝ

/-- `Odometry.__init__`. -/
noncomputable def Odometry.init (wheel_diameter body_width dt : ℝ) : OdomState :=
  { toBaseState := Base.init wheel_diameter body_width dt
    sum_path := 0 }

/-- State of the `Gyrodometry` estimator: `Odometry`'s fields plus
`_previous_phi` and `_previous_angular_velocity`. -/
structure GyroState extends OdomState where
  previous_phi : ℝ
  previous_angular_velocity : ℝ

/-- `Gyrodometry.__init__`. -/
noncomputable def Gyrodometry.init (wheel_diameter body_width dt : ℝ) : GyroState :=
  { toOdomState := Odometry.init wheel_diameter body_width dt
    previous_phi := 0
    previous_angular_velocity := 0 }

/-- `Ideal.compute_position`.  `true_pose` is the reading
`self._robot.get_pose()`.  Returns the polar coordinates together with the
(unmodified) estimator state: the method reads the collaborator but never
assigns any `self` field. -/
noncomputable def Ideal.compute_position (s : BaseState) (true_pose : Pose)
    (goal : ℝ × ℝ) : (ℝ × ℝ) × BaseState :=
  let position : Pose :=
    ⟨round3 true_pose.x, round3 true_pose.y,
      angle_correction (round3 true_pose.th)⟩
  let distance := norm2 (position.x - goal.1) (position.y - goal.2)
  let theta := angle_correction (atan2 (goal.2 - position.y) (goal.1 - position.x))
  let heading_angle := angle_correction (theta - position.th)
  ((round3 distance, round3 heading_angle), s)

/-- `Ideal.reset`: `self._pose = start_pose` (stored as given, unrounded). -/
noncomputable def Ideal.reset (s : BaseState) (start_pose : Pose) : BaseState :=
  { s with pose := start_pose }

/-- `Odometry.compute_delta_motion`, with the `self` fields it reads and
writes passed explicitly.  `enc` is the reading
`self._robot.get_encoders_rotations()` (left, right).  Returns
`(delta_path, delta_beta, updated sum_path)`. -/
noncomputable def Odometry.compute_delta_motion (wheel_radius body_width sum_path : ℝ)
    (enc : ℝ × ℝ) : ℝ × ℝ × ℝ :=
  let wheels_paths : ℝ × ℝ := (enc.1 * wheel_radius, enc.2 * wheel_radius)
  let delta_path := round3 ((wheels_paths.1 + wheels_paths.2) / 2)
  let new_sum_path := sum_path + delta_path
  let delta_beta := round3 ((wheels_paths.2 - wheels_paths.1) / body_width)
  (delta_path, delta_beta, new_sum_path)

/-- `Odometry.compute_position`:  integrate the encoder deltas into the
pose by the midpoint rule, round the pose, correct its heading, then
compute the goal-relative polar coordinates. -/
noncomputable def Odometry.compute_position (s : OdomState) (enc : ℝ × ℝ)
    (goal : ℝ × ℝ) : (ℝ × ℝ) × OdomState :=
  let dm := Odometry.compute_delta_motion s.wheel_radius s.body_width s.sum_path enc
  let delta_path := dm.1
  let delta_beta := dm.2.1
  let s1 : OdomState := { s with sum_path := dm.2.2 }
  let pose1 : Pose :=
    ⟨s1.pose.x + delta_path * Real.cos (s1.pose.th + delta_beta / 2),
      s1.pose.y + delta_path * Real.sin (s1.pose.th + delta_beta / 2),
      s1.pose.th + delta_beta⟩
  let pose2 : Pose :=
    ⟨round3 pose1.x, round3 pose1.y, angle_correction (round3 pose1.th)⟩
  let distance := norm2 (pose2.x - goal.1) (pose2.y - goal.2)
  let theta := angle_correction (atan2 (goal.2 - pose2.y) (goal.1 - pose2.x))
  let heading_angle := angle_correction (theta - pose2.th)
  ((round3 distance, round3 heading_angle), { s1 with pose := pose2 })

/-- `Odometry.reset`: pose stored as given (unrounded), `_sum_path` zeroed. -/
noncomputable def Odometry.reset (s : OdomState) (start_pose : Pose) : OdomState :=
  { s with pose := start_pose, sum_path := 0 }

/-- `Gyrodometry.compute_rotation`, with the `self` fields passed
explicitly.  `omega` is the reading `self._robot.get_gyroscope_values()`.
Returns `(delta_beta, updated previous_angular_velocity)`. -/
noncomputable def Gyrodometry.compute_rotation (dt omega : ℝ) : ℝ × ℝ :=
  let delta_beta := round3 (omega * dt)
  (delta_beta, omega)

/-- `Gyrodometry.compute_position`: translation from the (inherited)
encoder delta-motion routine, whose rotation component is discarded;
rotation from the gyroscope; then the same pose update and polar
computation as `Odometry`. -/
noncomputable def Gyrodometry.compute_position (s : GyroState) (enc : ℝ × ℝ)
    (omega : ℝ) (goal : ℝ × ℝ) : (ℝ × ℝ) × GyroState :=
  let dm := Odometry.compute_delta_motion s.wheel_radius s.body_width s.sum_path enc
  let delta_path := dm.1
  let s1 : GyroState := { s with sum_path := dm.2.2 }
  let rot := Gyrodometry.compute_rotation s1.dt omega
  let delta_beta := rot.1
  let s2 : GyroState := { s1 with previous_angular_velocity := rot.2 }
  let pose1 : Pose :=
    ⟨s2.pose.x + delta_path * Real.cos (s2.pose.th + delta_beta / 2),
      s2.pose.y + delta_path * Real.sin (s2.pose.th + delta_beta / 2),
      s2.pose.th + delta_beta⟩
  let pose2 : Pose :=
    ⟨round3 pose1.x, round3 pose1.y, angle_correction (round3 pose1.th)⟩
  let distance := norm2 (pose2.x - goal.1) (pose2.y - goal.2)
  let theta := angle_correction (atan2 (goal.2 - pose2.y) (goal.1 - pose2.x))
  let heading_angle := angle_correction (theta - pose2.th)
  ((round3 distance, round3 heading_angle), { s2 with pose := pose2 })

/-- `Gyrodometry.reset`: pose stored as given, `_sum_path` and
`_previous_angular_velocity` zeroed (`_previous_phi` is *not* reset). -/
noncomputable def Gyrodometry.reset (s : GyroState) (start_pose : Pose) : GyroState :=
  { s with pose := start_pose, sum_path := 0, previous_angular_velocity := 0 }

/-- `Odometry.compute_position` iterated `n` times with a fixed encoder
reading and goal (the N-tick scenarios of the spec). -/
noncomputable def Odometry.run (s : OdomState) (enc : ℝ × ℝ) (goal : ℝ × ℝ) :
    ℕ → OdomState
  | 0 => s
  | n + 1 => (Odometry.compute_position (Odometry.run s enc goal n) enc goal).2

/-! ### Basic facts about the rounding function -/

theorem roundHalfEven_intCast (m : ℤ) : roundHalfEven (m : ℝ) = m := by
  simp [roundHalfEven]

theorem round3_fix_of_mul {x : ℝ} {m : ℤ} (h : x * 1000 = (m : ℝ)) :
    round3 x = x := by
  have hx : x = (m : ℝ) / 1000 := by
    field_simp
    linarith
  rw [round3, h, roundHalfEven_intCast, hx]

theorem round3_spec (x : ℝ) : ∃ m : ℤ, round3 x = (m : ℝ) / 1000 :=
  ⟨roundHalfEven (x * 1000), rfl⟩

theorem round3_idem (x : ℝ) : round3 (round3 x) = round3 x := by
  obtain ⟨m, hm⟩ := round3_spec x
  rw [hm]
  exact @round3_fix_of_mul _ m (by field_simp)

theorem round3_zero : round3 0 = 0 :=
  @round3_fix_of_mul 0 0 (by norm_num)

theorem round3_one : round3 1 = 1 :=
  @round3_fix_of_mul 1 1000 (by norm_num)

theorem round3_fix_add {a b : ℝ} (ha : round3 a = a) (hb : round3 b = b) :
    round3 (a + b) = a + b := by
  obtain ⟨m, hm⟩ := round3_spec a
  obtain ⟨n, hn⟩ := round3_spec b
  rw [ha] at hm
  rw [hb] at hn
  refine @round3_fix_of_mul _ (m + n) ?_
  rw [hm, hn]
  push_cast
  ring

theorem round3_fix_natCast_mul {a : ℝ} (n : ℕ) (ha : round3 a = a) :
    round3 ((n : ℝ) * a) = (n : ℝ) * a := by
  obtain ⟨m, hm⟩ := round3_spec a
  rw [ha] at hm
  refine @round3_fix_of_mul _ ((n : ℤ) * m) ?_
  rw [hm]
  push_cast
  ring

theorem roundHalfEven_eq_floor {x : ℝ} (h : x - ⌊x⌋ < 1 / 2) :
    roundHalfEven x = ⌊x⌋ := by
  rw [roundHalfEven, if_pos h]

theorem roundHalfEven_eq_floor_add_one {x : ℝ} (h : 1 / 2 < x - ⌊x⌋) :
    roundHalfEven x = ⌊x⌋ + 1 := by
  have h' : ¬ x - ⌊x⌋ < 1 / 2 := by linarith
  rw [roundHalfEven, if_neg h', if_pos h]

theorem round3_small_pos {x : ℝ} (h0 : 0 ≤ x * 1000) (h1 : x * 1000 < 1 / 2) :
    round3 x = 0 := by
  have hf : ⌊x * 1000⌋ = 0 := by
    rw [Int.floor_eq_zero_iff]
    exact ⟨h0, by linarith⟩
  have h2 : x * 1000 - ⌊x * 1000⌋ < 1 / 2 := by
    rw [hf]
    push_cast
    linarith
  rw [round3, roundHalfEven_eq_floor h2, hf]
  norm_num

theorem round3_eq_of_near_floor {x : ℝ} {m : ℤ} (h0 : (m : ℝ) ≤ x * 1000)
    (h1 : x * 1000 < (m : ℝ) + 1 / 2) : round3 x = (m : ℝ) / 1000 := by
  have hf : ⌊x * 1000⌋ = m := by
    rw [Int.floor_eq_iff]
    exact ⟨h0, by linarith⟩
  have h2 : x * 1000 - ⌊x * 1000⌋ < 1 / 2 := by
    rw [hf]
    linarith
  rw [round3, roundHalfEven_eq_floor h2, hf]

theorem round3_between_half_one {x : ℝ} (h0 : 1 / 2 < x * 1000)
    (h1 : x * 1000 < 1) : round3 x = 1 / 1000 := by
  have hf : ⌊x * 1000⌋ = 0 := by
    rw [Int.floor_eq_zero_iff]
    exact ⟨by linarith, h1⟩
  have h2 : 1 / 2 < x * 1000 - ⌊x * 1000⌋ := by
    rw [hf]
    push_cast
    linarith
  rw [round3, roundHalfEven_eq_floor_add_one h2, hf]
  norm_num

theorem atan2_zero : atan2 0 0 = 0 := by
  have h : (⟨0, 0⟩ : ℂ) = 0 := by
    apply Complex.ext <;> simp
  rw [atan2, h, Complex.arg_zero]

theorem norm2_zero : norm2 0 0 = 0 := by
  simp [norm2]

/-! ### Claim theorems -/

/-- Claim C1: for every finite input angle, `_angle_correction` returns the
input angle rounded to 3 decimal places; the wrap candidate
`((angle ± π) mod 2π) ∓ π` is computed but discarded and never affects the
return value (the final assignment overwrites it with `round3 angle`). -/
theorem c1_angle_correction_returns_rounded_input (angle : ℝ) :
    angle_correction angle = round3 angle := rfl

/-- Claim C2 (code bug evaluated): the pose heading is *not* kept in
(−π, π].  From start pose (0,0,0) with wheel radius 1 (diameter 2) and body
width 1, a single `Odometry.compute_position` tick with encoder deltas
(0, 4) stores pose θ = 4, and π < 4, so θ lies outside (−π, π].  The code
contradicts `_angle_correction`'s own docstring ("correct given angles into
range -pi, pi"): the wrap result is overwritten by the rounded input. -/
theorem c2_theta_escapes_canonical_range :
    (Odometry.compute_position (Odometry.reset (Odometry.init 2 1 1) ⟨0, 0, 0⟩)
        (0, 4) (0, 0)).2.pose.th = 4 ∧ Real.pi < 4 := by
  refine ⟨?_, Real.pi_lt_four⟩
  have h4 : round3 (4 : ℝ) = 4 := @round3_fix_of_mul _ 4000 (by norm_num)
  norm_num [Odometry.compute_position, Odometry.compute_delta_motion,
    Odometry.reset, Odometry.init, Base.init, angle_correction, round3_zero, h4]

/-- Claim C4 (counterexample): constructing an estimator with
`bodyWidth = 0` is *not* rejected: `__init__` is total, performs no
validation, and simply stores the geometry, so construction with body
width 0 yields an ordinary estimator state carrying `body_width = 0`. -/
theorem c4_construction_accepts_zero_body_width :
    (Odometry.init 0.04 0 0.05).body_width = 0 ∧
    (Odometry.init 0.04 0 0.05).wheel_radius = 0.02 := by
  refine ⟨rfl, ?_⟩
  norm_num [Odometry.init, Base.init]

/-- Claim C4 (amended): construction performs no validation of the
geometry: any `body_width`, including 0, is accepted and stored unchanged
(`wheel_radius := wheel_diameter / 2`, accumulator zeroed), and the
division by `body_width` in `compute_delta_motion` is deferred to runtime
with no guard. -/
theorem c4_no_validation_amended (wheel_diameter body_width dt : ℝ) :
    (Odometry.init wheel_diameter body_width dt).body_width = body_width ∧
    (Odometry.init wheel_diameter body_width dt).wheel_radius = wheel_diameter / 2 ∧
    (Odometry.init wheel_diameter body_width dt).sum_path = 0 :=
  ⟨rfl, rfl, rfl⟩

/-- Claim C9: estimator output is deterministic.  In this functional
embedding every estimator step is a pure function of its state and sensor
inputs, so identical states and input sequences give identical outputs by
reflexivity.  In particular the Ideal estimator's output does not depend
on the estimator state at all (first conjunct: any two internal states
give the same output for the same ground-truth pose and goal, and its
signature takes no encoder or gyroscope reading, which it never reads),
so feeding it the same ground-truth pose twice in a row with the same
goal returns identical output both times (second conjunct). -/
theorem c9_determinism :
    (∀ s1 s2 : BaseState, ∀ true_pose : Pose, ∀ goal : ℝ × ℝ,
      (Ideal.compute_position s1 true_pose goal).1 =
        (Ideal.compute_position s2 true_pose goal).1) ∧
    (∀ s : BaseState, ∀ true_pose : Pose, ∀ goal : ℝ × ℝ,
      (Ideal.compute_position ((Ideal.compute_position s true_pose goal).2)
          true_pose goal).1 =
        (Ideal.compute_position s true_pose goal).1) :=
  ⟨fun _ _ _ _ => rfl, fun _ _ _ => rfl⟩

/-- Claim C10: `Ideal.compute_position` modifies no estimator state: for
every goal and ground-truth pose reading, the returned state is exactly
the input state (in particular the stored pose buffer is never overwritten
with the freshly read pose), and only `reset` writes the stored pose
(leaving every other field unchanged). -/
theorem c10_ideal_frame :
    (∀ s : BaseState, ∀ true_pose : Pose, ∀ goal : ℝ × ℝ,
      (Ideal.compute_position s true_pose goal).2 = s) ∧
    (∀ s : BaseState, ∀ p : Pose, Ideal.reset s p = { s with pose := p }) :=
  ⟨fun _ _ _ => rfl, fun _ _ => rfl⟩

/-- Claim C3 (counterexample): `reset` does *not* round the start pose
before storing it: after `reset((0.0004, 0, 0))` the stored pose x is
0.0004, while 0.0004 rounded to 3 decimals is 0 ≠ 0.0004. -/
theorem c3_reset_does_not_round_counterexample :
    (Odometry.reset (Odometry.init 1 1 1) ⟨0.0004, 0, 0⟩).pose.x = 0.0004 ∧
    round3 0.0004 = 0 ∧ (0.0004 : ℝ) ≠ 0 :=
  ⟨rfl, round3_small_pos (by norm_num) (by norm_num), by norm_num⟩

/-- Claim C3 (amended): `reset` stores the start pose exactly as given
(unrounded) and zeroes the path accumulator; it is `compute_position`
that rounds: every value it returns and every pose component it stores is
a fixed point of 3-decimal rounding, and the path accumulator remains at
3-decimal resolution whenever it was before the call. -/
theorem c3_rounding_amended (s : OdomState) (p : Pose) (enc goal : ℝ × ℝ)
    (hsum : round3 s.sum_path = s.sum_path) :
    Odometry.reset s p = { s with pose := p, sum_path := 0 } ∧
    round3 (Odometry.compute_position s enc goal).1.1 =
      (Odometry.compute_position s enc goal).1.1 ∧
    round3 (Odometry.compute_position s enc goal).1.2 =
      (Odometry.compute_position s enc goal).1.2 ∧
    round3 (Odometry.compute_position s enc goal).2.pose.x =
      (Odometry.compute_position s enc goal).2.pose.x ∧
    round3 (Odometry.compute_position s enc goal).2.pose.y =
      (Odometry.compute_position s enc goal).2.pose.y ∧
    round3 (Odometry.compute_position s enc goal).2.pose.th =
      (Odometry.compute_position s enc goal).2.pose.th ∧
    round3 (Odometry.compute_position s enc goal).2.sum_path =
      (Odometry.compute_position s enc goal).2.sum_path := by
  refine ⟨rfl, round3_idem _, round3_idem _, round3_idem _, round3_idem _,
    round3_idem _, ?_⟩
  exact round3_fix_add hsum (round3_idem _)

/-- Claim C3 (witness for the amended theorem), at a concrete estimator
state and input. -/
theorem c3_rounding_amended_witness :
    round3 (Odometry.compute_position (Odometry.init 0.04 0.1 0.05)
        (50, 50) (1, 0)).2.sum_path =
      (Odometry.compute_position (Odometry.init 0.04 0.1 0.05)
        (50, 50) (1, 0)).2.sum_path :=
  (c3_rounding_amended (Odometry.init 0.04 0.1 0.05) ⟨0, 0, 0⟩ (50, 50) (1, 0)
    round3_zero).2.2.2.2.2.2

/-- Claim C5: with wheel radius 0.02 (diameter 0.04), body width 0.1,
start pose (0,0,0), goal (1,0) and one `Odometry.compute_position` tick
with encoder deltas (50, 50): `compute_delta_motion` yields
`delta_path = 1` and `delta_beta = 0`, the updated pose is (1, 0, 0), and
the returned polar coordinates are (0, 0). -/
theorem c5_concrete_one_tick :
    (Odometry.compute_delta_motion 0.02 0.1 0 (50, 50)).1 = 1 ∧
    (Odometry.compute_delta_motion 0.02 0.1 0 (50, 50)).2.1 = 0 ∧
    (Odometry.compute_position (Odometry.reset (Odometry.init 0.04 0.1 0.05)
        ⟨0, 0, 0⟩) (50, 50) (1, 0)).2.pose.x = 1 ∧
    (Odometry.compute_position (Odometry.reset (Odometry.init 0.04 0.1 0.05)
        ⟨0, 0, 0⟩) (50, 50) (1, 0)).2.pose.y = 0 ∧
    (Odometry.compute_position (Odometry.reset (Odometry.init 0.04 0.1 0.05)
        ⟨0, 0, 0⟩) (50, 50) (1, 0)).2.pose.th = 0 ∧
    (Odometry.compute_position (Odometry.reset (Odometry.init 0.04 0.1 0.05)
        ⟨0, 0, 0⟩) (50, 50) (1, 0)).1.1 = 0 ∧
    (Odometry.compute_position (Odometry.reset (Odometry.init 0.04 0.1 0.05)
        ⟨0, 0, 0⟩) (50, 50) (1, 0)).1.2 = 0 := by
  refine ⟨?_, ?_, ?_, ?_, ?_, ?_, ?_⟩ <;>
    norm_num [Odometry.compute_position, Odometry.compute_delta_motion,
      Odometry.reset, Odometry.init, Base.init, angle_correction, round3_zero,
      round3_one, Real.cos_zero, Real.sin_zero, atan2_zero, norm2_zero]

/-- The geometry constants and tick duration are never written by
`compute_position`, so they are invariant under `Odometry.run`. -/
theorem odometry_run_geometry (s : OdomState) (enc goal : ℝ × ℝ) (n : ℕ) :
    (Odometry.run s enc goal n).wheel_radius = s.wheel_radius ∧
    (Odometry.run s enc goal n).body_width = s.body_width ∧
    (Odometry.run s enc goal n).dt = s.dt := by
  induction n with
  | zero => exact ⟨rfl, rfl, rfl⟩
  | succ n ih => exact ih

/-- Claim C6 (counterexample): the claim fails for start poses whose
heading is not at the 3-decimal resolution.  From start pose
(0, 0, 0.0004) with wheel diameter 0.04, body width 0.1, dt 0.05, one
tick with equal encoder deltas (1, 1) and gyroscope reading ω = 1:
Odometry's heading does *not* stay unchanged — the pose rounding changes
it to 0 ≠ 0.0004 — and Gyrodometry's heading becomes 0.05, a change of
0.05 − 0.0004 = 0.0496 ≠ round3(ω·dt) = 0.05. -/
theorem c6_heading_change_counterexample :
    (Odometry.compute_position (Odometry.reset (Odometry.init 0.04 0.1 0.05)
        ⟨0, 0, 0.0004⟩) (1, 1) (1, 0)).2.pose.th = 0 ∧
    (0 : ℝ) ≠ 0.0004 ∧
    (Gyrodometry.compute_position
        (Gyrodometry.reset (Gyrodometry.init 0.04 0.1 0.05) ⟨0, 0, 0.0004⟩)
        (1, 1) 1 (1, 0)).2.pose.th = 1 / 20 ∧
    (1 / 20 : ℝ) - 0.0004 ≠ round3 (1 * 0.05) := by
  have hx004 : round3 ((1 : ℝ) / 2500) = 0 :=
    round3_small_pos (by norm_num) (by norm_num)
  have h05 : round3 ((1 : ℝ) / 20) = 1 / 20 :=
    @round3_fix_of_mul _ 50 (by norm_num)
  have h0504 : round3 ((63 : ℝ) / 1250) = 1 / 20 := by
    have h := @round3_eq_of_near_floor (63 / 1250) 50 (by norm_num) (by norm_num)
    rw [h]
    norm_num
  refine ⟨?_, by norm_num, ?_, ?_⟩
  · norm_num [Odometry.compute_position, Odometry.compute_delta_motion,
      Odometry.reset, Odometry.init, Base.init, angle_correction, round3_zero,
      hx004]
  · norm_num [Gyrodometry.compute_position, Odometry.compute_delta_motion,
      Gyrodometry.compute_rotation, Gyrodometry.reset, Gyrodometry.init,
      Odometry.init, Base.init, angle_correction, round3_zero, h05, h0504]
  · norm_num [h05]

/-- Claim C6 (amended): one tick with equal encoder deltas `(d, d)` and
gyroscope reading `omega`, both estimators started from the same pose
whose heading is at the 3-decimal resolution at which the estimators
store poses (a fixed point of `round3`), with nonzero body width: the
Odometry heading is unchanged, the Gyrodometry heading changes by exactly
`round3 (omega * dt)`, and whenever `round3 (omega * dt) ≠ 0` the two
headings differ. -/
theorem c6_gyro_odometry_divergence (wd bw dt d omega : ℝ) (p : Pose)
    (goal : ℝ × ℝ) (hbw : bw ≠ 0) (hth : round3 p.th = p.th) :
    (Odometry.compute_position (Odometry.reset (Odometry.init wd bw dt) p)
        (d, d) goal).2.pose.th = p.th ∧
    (Gyrodometry.compute_position
        (Gyrodometry.reset (Gyrodometry.init wd bw dt) p)
        (d, d) omega goal).2.pose.th = p.th + round3 (omega * dt) ∧
    (round3 (omega * dt) ≠ 0 →
      (Odometry.compute_position (Odometry.reset (Odometry.init wd bw dt) p)
          (d, d) goal).2.pose.th ≠
        (Gyrodometry.compute_position
          (Gyrodometry.reset (Gyrodometry.init wd bw dt) p)
          (d, d) omega goal).2.pose.th) := by
  have hsum : round3 (p.th + round3 (omega * dt)) = p.th + round3 (omega * dt) :=
    round3_fix_add hth (round3_idem _)
  have hodo : (Odometry.compute_position (Odometry.reset (Odometry.init wd bw dt) p)
      (d, d) goal).2.pose.th = p.th := by
    simp [Odometry.compute_position, Odometry.compute_delta_motion, Odometry.reset,
      Odometry.init, Base.init, angle_correction, round3_zero, hth]
  have hgyro : (Gyrodometry.compute_position
      (Gyrodometry.reset (Gyrodometry.init wd bw dt) p)
      (d, d) omega goal).2.pose.th = p.th + round3 (omega * dt) := by
    simp [Gyrodometry.compute_position, Odometry.compute_delta_motion,
      Gyrodometry.compute_rotation, Gyrodometry.reset, Gyrodometry.init,
      Odometry.init, Base.init, angle_correction, hsum]
  refine ⟨hodo, hgyro, ?_⟩
  intro hne
  rw [hodo, hgyro]
  intro h
  exact hne (by linarith)

/-- Claim C6 (witness for the amended theorem): concrete divergence with
wheel diameter 0.04, body width 0.1, dt = 0.05, start pose (0,0,0),
encoder deltas (1,1) and gyroscope reading 1 (so the heading change is
round3 0.05 = 0.05 ≠ 0). -/
theorem c6_gyro_odometry_divergence_witness :
    (Odometry.compute_position
        (Odometry.reset (Odometry.init 0.04 0.1 0.05) ⟨0, 0, 0⟩)
        (1, 1) (1, 0)).2.pose.th ≠
      (Gyrodometry.compute_position
        (Gyrodometry.reset (Gyrodometry.init 0.04 0.1 0.05) ⟨0, 0, 0⟩)
        (1, 1) 1 (1, 0)).2.pose.th := by
  have h : round3 ((1 : ℝ) * 0.05) = 1 * 0.05 :=
    @round3_fix_of_mul _ 50 (by norm_num)
  exact (c6_gyro_odometry_divergence 0.04 0.1 0.05 1 1 ⟨0, 0, 0⟩ (1, 0)
    (by norm_num) round3_zero).2.2 (by rw [h]; norm_num)

/-- Claim C7 (counterexample): the claim fails for start poses that are not
at the 3-decimal resolution.  After `reset((0.0004, 0.0004, 0))`, calling
`compute_position` with goal (0.0004, 0.0004) and zero encoder deltas
rounds the stored pose to (0, 0, 0), so the returned distance is
`round3 (√((0−0.0004)² + (0−0.0004)²)) = 0.001 ≠ 0`. -/
theorem c7_unrounded_start_pose_counterexample :
    (Odometry.compute_position (Odometry.reset (Odometry.init 0.04 0.1 0.05)
        ⟨0.0004, 0.0004, 0⟩) (0, 0) (0.0004, 0.0004)).1.1 = 1 / 1000 ∧
    (1 / 1000 : ℝ) ≠ 0 := by
  have hx004 : round3 ((1 : ℝ) / 2500) = 0 :=
    round3_small_pos (by norm_num) (by norm_num)
  have hs1 : (1 / 2000 : ℝ) < Real.sqrt (1 / 3125000) := by
    rw [Real.lt_sqrt (by norm_num)]
    norm_num
  have hs2 : Real.sqrt (1 / 3125000) < 1 / 1000 := by
    rw [Real.sqrt_lt' (by norm_num)]
    norm_num
  have hd : round3 (Real.sqrt (1 / 3125000)) = 1 / 1000 :=
    round3_between_half_one (by linarith) (by linarith)
  have heq : ((Real.sqrt 3125000)⁻¹ : ℝ) = Real.sqrt (1 / 3125000) := by
    rw [one_div, Real.sqrt_inv]
  have hd' : round3 ((Real.sqrt 3125000)⁻¹) = 1 / 1000 := by
    rw [heq]
    exact hd
  refine ⟨?_, by norm_num⟩
  norm_num [Odometry.compute_position, Odometry.compute_delta_motion,
    Odometry.reset, Odometry.init, Base.init, angle_correction, round3_zero,
    hx004, norm2, hd']

/-- Claim C7 (amended): for every start pose whose x and y components are
at the 3-decimal resolution (fixed points of `round3`), after `reset(p)` a
`compute_position` call with goal `(p.x, p.y)` and zero sensor readings
returns distance 0, for both Odometry and Gyrodometry. -/
theorem c7_zero_motion_distance_amended (wd bw dt : ℝ) (p : Pose)
    (hbw : bw ≠ 0) (hx : round3 p.x = p.x) (hy : round3 p.y = p.y) :
    (Odometry.compute_position (Odometry.reset (Odometry.init wd bw dt) p)
        (0, 0) (p.x, p.y)).1.1 = 0 ∧
    (Gyrodometry.compute_position
        (Gyrodometry.reset (Gyrodometry.init wd bw dt) p)
        (0, 0) 0 (p.x, p.y)).1.1 = 0 := by
  constructor <;>
    simp [Odometry.compute_position, Gyrodometry.compute_position,
      Odometry.compute_delta_motion, Gyrodometry.compute_rotation,
      Odometry.reset, Gyrodometry.reset, Odometry.init, Gyrodometry.init,
      Base.init, angle_correction, round3_zero, hx, hy, norm2_zero]

/-- Claim C7 (witness for the amended theorem) at start pose (0,0,0). -/
theorem c7_zero_motion_distance_amended_witness :
    (Odometry.compute_position
        (Odometry.reset (Odometry.init 0.04 0.1 0.05) ⟨0, 0, 0⟩)
        (0, 0) ((0 : ℝ), (0 : ℝ))).1.1 = 0 :=
  (c7_zero_motion_distance_amended 0.04 0.1 0.05 ⟨0, 0, 0⟩ (by norm_num)
    round3_zero round3_zero).1

/-- Claim C8 (counterexample): the claim fails when `Δ·wheelRadius` is not
at the 3-decimal resolution.  With wheel radius 0.02 and encoder deltas
(0.02, 0.02), each tick's `delta_path = round3 0.0004 = 0`, so after
N = 3 ticks from (0,0,0) the estimated x is still 0, while
`N·Δ·wheelRadius = 0.0012`: the difference 0.0012 exceeds the claimed
tolerance 0.001 (θ does stay 0 throughout). -/
theorem c8_straight_line_counterexample :
    (Odometry.run (Odometry.reset (Odometry.init 0.04 0.1 0.05) ⟨0, 0, 0⟩)
        (0.02, 0.02) (1, 0) 3).pose.x = 0 ∧
    ¬ |(0 : ℝ) - 3 * (0.02 * 0.02)| ≤ 0.001 := by
  have hsmall : round3 ((1 : ℝ) / 2500) = 0 :=
    round3_small_pos (by norm_num) (by norm_num)
  have hstep : ∀ s : OdomState, s.wheel_radius = 0.02 → s.pose = ⟨0, 0, 0⟩ →
      (Odometry.compute_position s (0.02, 0.02) (1, 0)).2.pose = ⟨0, 0, 0⟩ := by
    intro s hw hp
    apply Pose.ext <;>
      norm_num [Odometry.compute_position, Odometry.compute_delta_motion,
        angle_correction, hw, hp, round3_zero, hsmall]
  have h0w : (Odometry.reset (Odometry.init 0.04 0.1 0.05)
      ⟨0, 0, 0⟩).wheel_radius = 0.02 := by
    norm_num [Odometry.reset, Odometry.init, Base.init]
  have h1 : (Odometry.compute_position
      (Odometry.reset (Odometry.init 0.04 0.1 0.05) ⟨0, 0, 0⟩)
      (0.02, 0.02) (1, 0)).2.pose = ⟨0, 0, 0⟩ := hstep _ h0w rfl
  have h2 : (Odometry.compute_position ((Odometry.compute_position
      (Odometry.reset (Odometry.init 0.04 0.1 0.05) ⟨0, 0, 0⟩)
      (0.02, 0.02) (1, 0)).2) (0.02, 0.02) (1, 0)).2.pose = ⟨0, 0, 0⟩ :=
    hstep _ h0w h1
  have h3 : (Odometry.compute_position ((Odometry.compute_position
      ((Odometry.compute_position
        (Odometry.reset (Odometry.init 0.04 0.1 0.05) ⟨0, 0, 0⟩)
        (0.02, 0.02) (1, 0)).2) (0.02, 0.02) (1, 0)).2)
      (0.02, 0.02) (1, 0)).2.pose = ⟨0, 0, 0⟩ := hstep _ h0w h2
  constructor
  · have hrun : Odometry.run (Odometry.reset (Odometry.init 0.04 0.1 0.05)
        ⟨0, 0, 0⟩) (0.02, 0.02) (1, 0) 3 =
        (Odometry.compute_position ((Odometry.compute_position
          ((Odometry.compute_position
            (Odometry.reset (Odometry.init 0.04 0.1 0.05) ⟨0, 0, 0⟩)
            (0.02, 0.02) (1, 0)).2) (0.02, 0.02) (1, 0)).2)
          (0.02, 0.02) (1, 0)).2 := rfl
    rw [hrun, h3]
  · rw [zero_sub, abs_neg, abs_of_nonneg (by norm_num : (0 : ℝ) ≤ 3 * (0.02 * 0.02))]
    norm_num

/-- Claim C8 (amended): starting from pose (0,0,0), if `Δ·wheelRadius` is
at the 3-decimal resolution (a fixed point of `round3`), then for every N
and equal encoder deltas `(Δ, Δ)` per tick, the pose rotation θ stays 0
throughout and the estimated x equals `N·Δ·wheelRadius` exactly — in
particular it is within 0.001 of it. -/
theorem c8_straight_line_amended (wd bw dt d gx gy : ℝ) (hbw : bw ≠ 0)
    (hfix : round3 (d * (wd / 2)) = d * (wd / 2)) (n : ℕ) :
    (Odometry.run (Odometry.reset (Odometry.init wd bw dt) ⟨0, 0, 0⟩)
        (d, d) (gx, gy) n).pose.x = (n : ℝ) * (d * (wd / 2)) ∧
    (Odometry.run (Odometry.reset (Odometry.init wd bw dt) ⟨0, 0, 0⟩)
        (d, d) (gx, gy) n).pose.y = 0 ∧
    (Odometry.run (Odometry.reset (Odometry.init wd bw dt) ⟨0, 0, 0⟩)
        (d, d) (gx, gy) n).pose.th = 0 ∧
    |(Odometry.run (Odometry.reset (Odometry.init wd bw dt) ⟨0, 0, 0⟩)
        (d, d) (gx, gy) n).pose.x - (n : ℝ) * (d * (wd / 2))| ≤ 0.001 := by
  induction n with
  | zero => norm_num [Odometry.run, Odometry.reset]
  | succ n ih =>
    obtain ⟨ihx, ihy, ihth, -⟩ := ih
    have hwr : (Odometry.run (Odometry.reset (Odometry.init wd bw dt) ⟨0, 0, 0⟩)
        (d, d) (gx, gy) n).wheel_radius = wd / 2 :=
      (odometry_run_geometry _ _ _ n).1
    have havg : (d * (wd / 2) + d * (wd / 2)) / 2 = d * (wd / 2) := by ring
    have harg : (n : ℝ) * (d * (wd / 2)) + d * (wd / 2) =
        ((n + 1 : ℕ) : ℝ) * (d * (wd / 2)) := by
      push_cast
      ring
    have hx1 : round3 ((n : ℝ) * (d * (wd / 2)) + d * (wd / 2)) =
        (n : ℝ) * (d * (wd / 2)) + d * (wd / 2) := by
      rw [harg]
      exact round3_fix_natCast_mul (n + 1) hfix
    have hx2 : round3 (((n : ℝ) + 1) * (d * (wd / 2))) =
        ((n : ℝ) + 1) * (d * (wd / 2)) := by
      have h := round3_fix_natCast_mul (n + 1) hfix
      push_cast at h
      exact h
    have hx : (Odometry.run (Odometry.reset (Odometry.init wd bw dt) ⟨0, 0, 0⟩)
        (d, d) (gx, gy) (n + 1)).pose.x = ((n + 1 : ℕ) : ℝ) * (d * (wd / 2)) := by
      rw [show Odometry.run (Odometry.reset (Odometry.init wd bw dt) ⟨0, 0, 0⟩)
          (d, d) (gx, gy) (n + 1) =
          (Odometry.compute_position (Odometry.run
            (Odometry.reset (Odometry.init wd bw dt) ⟨0, 0, 0⟩)
            (d, d) (gx, gy) n) (d, d) (gx, gy)).2 from rfl]
      simp [Odometry.compute_position, Odometry.compute_delta_motion,
        angle_correction, ihx, ihy, ihth, hwr, havg, hfix, hx1, hx2, round3_zero,
        Real.cos_zero, Real.sin_zero, harg]
    refine ⟨hx, ?_, ?_, ?_⟩
    · rw [show Odometry.run (Odometry.reset (Odometry.init wd bw dt) ⟨0, 0, 0⟩)
          (d, d) (gx, gy) (n + 1) =
          (Odometry.compute_position (Odometry.run
            (Odometry.reset (Odometry.init wd bw dt) ⟨0, 0, 0⟩)
            (d, d) (gx, gy) n) (d, d) (gx, gy)).2 from rfl]
      simp [Odometry.compute_position, Odometry.compute_delta_motion,
        angle_correction, ihx, ihy, ihth, hwr, havg, hfix, round3_zero,
        Real.sin_zero]
    · rw [show Odometry.run (Odometry.reset (Odometry.init wd bw dt) ⟨0, 0, 0⟩)
          (d, d) (gx, gy) (n + 1) =
          (Odometry.compute_position (Odometry.run
            (Odometry.reset (Odometry.init wd bw dt) ⟨0, 0, 0⟩)
            (d, d) (gx, gy) n) (d, d) (gx, gy)).2 from rfl]
      simp [Odometry.compute_position, Odometry.compute_delta_motion,
        angle_correction, ihth, round3_zero]
    · rw [hx, sub_self, abs_zero]
      norm_num

/-- Claim C8 (witness for the amended theorem): wheel radius 0.02, deltas
(50, 50), two ticks: the pose is (2, 0, 0). -/
theorem c8_straight_line_amended_witness :
    (Odometry.run (Odometry.reset (Odometry.init 0.04 0.1 0.05) ⟨0, 0, 0⟩)
        (50, 50) (1, 0) 2).pose.x = ((2 : ℕ) : ℝ) * (50 * (0.04 / 2)) ∧
    (Odometry.run (Odometry.reset (Odometry.init 0.04 0.1 0.05) ⟨0, 0, 0⟩)
        (50, 50) (1, 0) 2).pose.y = 0 ∧
    (Odometry.run (Odometry.reset (Odometry.init 0.04 0.1 0.05) ⟨0, 0, 0⟩)
        (50, 50) (1, 0) 2).pose.th = 0 ∧
    |(Odometry.run (Odometry.reset (Odometry.init 0.04 0.1 0.05) ⟨0, 0, 0⟩)
        (50, 50) (1, 0) 2).pose.x - ((2 : ℕ) : ℝ) * (50 * (0.04 / 2))| ≤ 0.001 :=
  c8_straight_line_amended 0.04 0.1 0.05 50 1 0 (by norm_num)
    (@round3_fix_of_mul _ 1000 (by norm_num)) 2

end GymVrep
